import Mathlib

/-!
Token lifecycle of `src/lib/auth.js` and `src/lib/utils.js`.

A shallow embedding of the OAuth token handling of the repository:
`set_session_token`, `invalidate_session`, `generate_access_token`,
`refresh_access_token`, `get_env_token`, `get_session_token` (auth.js) and
`check_result`, the body decoding of `send` (utils.js).

Modelling conventions.

* `JsVal` is the set of JavaScript values the program can meet in a decoded
  JSON body or in a session field: `undefined`, `null`, booleans, numbers,
  `NaN`, strings, arrays and plain objects.  Numbers are integers (epoch
  milliseconds, lifetimes in seconds, HTTP status codes); fractional numbers
  and infinities are outside the model.  The program computes in IEEE doubles:
  the integer sums and products of the model are the program's as long as the
  operands and the result are safe integers (`isSafeInteger`), and the
  theorems that range over clock readings and lifetimes assume so.
* The ECMAScript conversion of a string to a number is a parameter
  `stn : String → Option Int` (`none` is `NaN`); every theorem holds for every
  such conversion.
* Every `async` function receives the outcome of its single `Utils.send` call
  as an argument (`SendResult`) and reports the requests it issued, so that
  "no network call" is the statement `requests = []`.
* `Date.now()` is an argument: `now` is the reading taken by the function
  itself, `later` the reading taken by the write-back after the awaited
  request.
-/

namespace Auth

/-! ## JavaScript values -/

/-- JavaScript values: JSON values, `undefined` and `NaN`. -/
inductive JsVal where
  | undefined
  | null
  | bool (b : Bool)
  | num (n : Int)
  | nan
  | str (s : String)
  | arr (items : List JsVal)
  | obj (fields : List (String × JsVal))

namespace JsVal

/-- ToBoolean. -/
def truthy : JsVal → Bool
  | undefined => false
  | null => false
  | bool b => b
  | num n => n != 0
  | nan => false
  | str s => s != ""
  | arr _ => true
  | obj _ => true

/-- The operator `a || b`. -/
def orElse (a b : JsVal) : JsVal :=
  if a.truthy then a else b

/-- The test `v == null`, true exactly of `null` and `undefined`. -/
def eqNull : JsVal → Bool
  | undefined => true
  | null => true
  | _ => false

/-- Lookup of an own property in the field list of an object. -/
def lookup (key : String) : List (String × JsVal) → JsVal
  | [] => undefined
  | (k, v) :: rest => if k == key then v else lookup key rest

/-- The value of `v.key` for a `v` that is neither `null` nor `undefined`, for
the property names the program reads (`status`, `refresh_token`,
`access_token`, `expires_in`, `message`, `error`): an own property of an
object, `undefined` on every primitive and on arrays. -/
def field (v : JsVal) (key : String) : JsVal :=
  match v with
  | obj fields => lookup key fields
  | _ => undefined

mutual
/-- ToString. -/
def toStr : JsVal → String
  | undefined => "undefined"
  | null => "null"
  | bool true => "true"
  | bool false => "false"
  | num n => toString n
  | nan => "NaN"
  | str s => s
  | arr items => joinItems items
  | obj _ => "[object Object]"
/-- The join with "," that is the string form of an array. -/
def joinItems : List JsVal → String
  | [] => ""
  | [x] => elemStr x
  | x :: y :: rest => elemStr x ++ "," ++ joinItems (y :: rest)
/-- The string of one array element inside a join: empty for `null` and
`undefined`. -/
def elemStr : JsVal → String
  | undefined => ""
  | null => ""
  | v => toStr v
end

/-- The constant `Number.MAX_SAFE_INTEGER`, which is `2 ^ 53 - 1`. -/
def MAX_SAFE_INTEGER : Int := 9007199254740991

/-- The test `Number.isSafeInteger` on an integer: a double holds it exactly,
and `+`, `-`, `*` on doubles return the exact result whenever that result
passes the test. -/
def isSafeInteger (x : Int) : Prop :=
  -MAX_SAFE_INTEGER ≤ x ∧ x ≤ MAX_SAFE_INTEGER

instance (x : Int) : Decidable (isSafeInteger x) := by
  unfold isSafeInteger; infer_instance

/-- Wraps a number (`none` is `NaN`) as a value. -/
def ofNum : Option Int → JsVal
  | some n => num n
  | none => nan

/-- ToNumber; `stn` converts strings. -/
def toNumber (stn : String → Option Int) : JsVal → Option Int
  | undefined => none
  | null => some 0
  | bool true => some 1
  | bool false => some 0
  | num n => some n
  | nan => none
  | str s => stn s
  | arr items => stn (joinItems items)
  | obj _ => none

/-- The comparison `v < n` against a number `n`: false when `v` converts to
`NaN`. -/
def ltNum (stn : String → Option Int) (v : JsVal) (n : Int) : Bool :=
  match toNumber stn v with
  | some x => decide (x < n)
  | none => false

/-- The comparison `v > n` against a number `n`: false when `v` converts to
`NaN`. -/
def gtNum (stn : String → Option Int) (v : JsVal) (n : Int) : Bool :=
  match toNumber stn v with
  | some x => decide (n < x)
  | none => false

/-- The product `v * k` with a number `k`. -/
def mulNum (stn : String → Option Int) (v : JsVal) (k : Int) : Option Int :=
  (toNumber stn v).map (fun x => x * k)

/-- The sum `n + v` with a number `n` on the left: concatenation when `v` is a
string, an array or an object, numeric addition otherwise. -/
def numAdd (n : Int) : JsVal → JsVal
  | undefined => nan
  | null => num n
  | bool true => num (n + 1)
  | bool false => num n
  | num m => num (n + m)
  | nan => nan
  | str s => str (toString n ++ s)
  | arr items => str (toString n ++ joinItems items)
  | obj _ => str (toString n ++ "[object Object]")

/-- The test `v == s` against a string `s`. -/
def looseEqStr (stn : String → Option Int) (v : JsVal) (s : String) : Bool :=
  match v with
  | undefined => false
  | null => false
  | bool true => stn s == some 1
  | bool false => stn s == some 0
  | num n => stn s == some n
  | nan => false
  | str t => t == s
  | arr items => joinItems items == s
  | obj _ => "[object Object]" == s

end JsVal

open JsVal

/-! ## Responses, errors, requests -/

/-- The object `send` resolves with (its `headers` are never read). -/
structure Response where
  statusCode : Int
  body : JsVal

/-- What an `await Utils.send(options)` yields. -/
inductive SendResult where
  | rejected (reason : String)
  | resolved (response : Response)

/-- The exceptions the program can raise. -/
inductive JsError where
  /-- A rejection of `send`, rethrown unchanged. -/
  | rejected (reason : String)
  /-- A property read on `null` or `undefined`. -/
  | typeError
  /-- The `Error(message)` of `check_result`. -/
  | error (message : JsVal)
  /-- The `Error` whose text is "Unexpected token response: " followed by the
  serialised response. -/
  | unexpectedTokenResponse (response : Response)

/-- The requests sent to the token endpoint, by purpose and token. -/
inductive Request where
  | revoke (token : JsVal)
  | authorization_code (code : JsVal)
  | refresh_token (refresh_token : JsVal)

/-- The read `v.key`, which throws on `null` and `undefined`. -/
def getProp (v : JsVal) (key : String) : Except JsError JsVal :=
  if v.eqNull then .error .typeError else .ok (v.field key)

/-! ## utils.js -/

/-- The constant `HTTP_CODE.NOT_ACCEPTED`. -/
def HTTP_CODE.NOT_ACCEPTED : Int := 300

/-- The function `check_result` (the lookup of the caller's name and the console
logging left out): throws when the status code exceeds
`HTTP_CODE.NOT_ACCEPTED`. -/
def check_result (result : Response) : Except JsError Unit :=
  if result.statusCode > HTTP_CODE.NOT_ACCEPTED then
    match getProp result.body "message" with
    | .error e => .error e
    | .ok message =>
      match (if message.truthy then .ok message else getProp result.body "error") with
      | .error e => .error e
      | .ok cond =>
        if cond.truthy then
          if message.truthy then .error (.error message)
          else
            match getProp result.body "error" with
            | .error e => .error e
            | .ok err =>
              match getProp err "message" with
              | .error e => .error e
              | .ok m => .error (.error m)
        else .error (.error (str "Unreadable response."))
  else .ok ()

/-- The `body` that `send` resolves with for the received text `raw`: the text
is parsed as JSON (an empty text as `{}`), and kept as it is when parsing
throws.  `parse` is `JSON.parse`. -/
def send_body (parse : String → Option JsVal) (raw : String) : JsVal :=
  match parse (if raw == "" then "\x7b\x7d" else raw) with
  | some v => v
  | none => str raw

/-! ## auth.js -/

/-- The three token fields of `ctx.session`. -/
structure Session where
  z_refresh_token : JsVal
  z_access_token : JsVal
  z_expiry : JsVal

/-- The module globals `z_expiry` and `z_access_token`. -/
structure Globals where
  z_expiry : JsVal
  z_access_token : JsVal

/-- The initial module globals. -/
def Globals.init : Globals := ⟨null, null⟩

/-- The function `set_session_token`; `timeout` defaults to 3600 when it is
`undefined`, `now` is `Date.now()`.  The expiry is computed on integers, which
is what the program's doubles give when `now`, `timeout * 1000`,
`now + timeout * 1000` and the expiry itself are safe integers. -/
def set_session_token (stn : String → Option Int) (now : Int)
    (refresh_token access_token timeout : JsVal) : Session :=
  let timeout := match timeout with
    | undefined => num 3600
    | t => t
  { z_expiry := ofNum (((timeout.mulNum stn 1000).map (fun x => now + x)).map (fun x => x - 1000))
    z_refresh_token := refresh_token
    z_access_token := access_token }

/-- The result of a session operation: the value returned or the exception
thrown, the session afterwards and the requests issued. -/
structure SessionOutcome where
  result : Except JsError JsVal
  session : Session
  requests : List Request

/-- The function `invalidate_session`. -/
def invalidate_session (stn : String → Option Int) (s : Session) (now : Int)
    (reply : SendResult) : SessionOutcome :=
  let params := Request.revoke s.z_refresh_token
  match reply with
  | .rejected err => ⟨.error (.rejected err), s, [params]⟩
  | .resolved response =>
    if !(response.body.truthy &&
          ((response.body.field "status").looseEqStr stn "success" ||
            response.statusCode == 400)) then
      ⟨.error (.unexpectedTokenResponse response), s, [params]⟩
    else
      ⟨.ok undefined, set_session_token stn now null null undefined, [params]⟩

/-- The function `generate_access_token`. -/
def generate_access_token (stn : String → Option Int) (s : Session) (code : JsVal)
    (now : Int) (reply : SendResult) : SessionOutcome :=
  let token_params := Request.authorization_code code
  match reply with
  | .rejected err => ⟨.error (.rejected err), s, [token_params]⟩
  | .resolved response =>
    if !(response.body.truthy && (response.body.field "refresh_token").truthy) then
      ⟨.error (.unexpectedTokenResponse response), s, [token_params]⟩
    else
      ⟨.ok (response.body.field "access_token"),
        set_session_token stn now (response.body.field "refresh_token")
          (response.body.field "access_token") (response.body.field "expires_in"),
        [token_params]⟩

/-- The object `refresh_access_token` returns. -/
structure TokenResult where
  access_token : JsVal
  timeout : JsVal

/-- The function `refresh_access_token`, given the outcome of its request. -/
def refresh_access_token (reply : SendResult) : Except JsError TokenResult :=
  match reply with
  | .rejected err => .error (.rejected err)
  | .resolved response =>
    match check_result response with
    | .error e => .error e
    | .ok () =>
      match getProp response.body "access_token" with
      | .error e => .error e
      | .ok access_token =>
        match getProp response.body "expires_in" with
        | .error e => .error e
        | .ok expires_in => .ok ⟨access_token, expires_in⟩

/-- The result of `get_env_token`: the value returned or the exception thrown,
the module globals afterwards and the requests issued. -/
structure EnvOutcome where
  result : Except JsError JsVal
  globals : Globals
  requests : List Request

/-- The function `get_env_token`. -/
def get_env_token (stn : String → Option Int) (g : Globals) (refresh_token : JsVal)
    (now later : Int) (reply : SendResult) : EnvOutcome :=
  let valid_token := !g.z_access_token.eqNull && g.z_expiry.gtNum stn now
  if valid_token == false then
    match refresh_access_token reply with
    | .error e => ⟨.error e, g, [Request.refresh_token refresh_token]⟩
    | .ok result =>
      ⟨.ok result.access_token,
        { z_access_token := result.access_token, z_expiry := numAdd later result.timeout },
        [Request.refresh_token refresh_token]⟩
  else ⟨.ok g.z_access_token, g, []⟩

/-- The function `get_session_token`. -/
def get_session_token (stn : String → Option Int) (s : Session) (now later : Int)
    (reply : SendResult) : SessionOutcome :=
  let refresh_token := s.z_refresh_token.orElse null
  let access_token := s.z_access_token.orElse null
  let expiry := s.z_expiry
  if refresh_token.eqNull then ⟨.ok null, s, []⟩
  else
    let has_expired := expiry.ltNum stn now
    if access_token.eqNull || has_expired then
      match refresh_access_token reply with
      | .error e => ⟨.error e, s, [Request.refresh_token refresh_token]⟩
      | .ok result =>
        ⟨.ok (if result.access_token.truthy then result.access_token else null),
          set_session_token stn later refresh_token result.access_token result.timeout,
          [Request.refresh_token refresh_token]⟩
    else ⟨.ok access_token, s, []⟩

/-! ## Lemmas on the value operations -/

theorem JsVal.eqNull_of_truthy {v : JsVal} (h : v.truthy = true) : v.eqNull = false := by
  cases v <;> simp_all [JsVal.truthy, JsVal.eqNull]

theorem JsVal.orElse_null_of_truthy {v : JsVal} (h : v.truthy = true) :
    v.orElse null = v := by
  simp [JsVal.orElse, h]

theorem JsVal.orElse_null_of_falsy {v : JsVal} (h : v.truthy = false) :
    v.orElse null = null := by
  simp [JsVal.orElse, h]

theorem JsVal.eqNull_orElse_null (v : JsVal) : (v.orElse null).eqNull = !v.truthy := by
  cases h : v.truthy
  · simp [JsVal.orElse_null_of_falsy h, JsVal.eqNull]
  · simp [JsVal.orElse_null_of_truthy h, JsVal.eqNull_of_truthy h]

theorem JsVal.ltNum_num (stn : String → Option Int) (e n : Int) :
    (num e).ltNum stn n = decide (e < n) := rfl

theorem JsVal.gtNum_num (stn : String → Option Int) (e n : Int) :
    (num e).gtNum stn n = decide (n < e) := rfl

theorem JsVal.field_eq_undefined_of_falsy {v : JsVal} (h : v.truthy = false) (key : String) :
    v.field key = undefined := by
  cases v <;> simp_all [JsVal.truthy, JsVal.field]

theorem getProp_of_truthy {v : JsVal} (h : v.truthy = true) (key : String) :
    getProp v key = .ok (v.field key) := by
  simp [getProp, JsVal.eqNull_of_truthy h]

/-! ## get_session_token -/

/-- C1: a session whose `z_refresh_token` is `null`, `undefined` or the empty
string makes `get_session_token` return `null`, issue no request and leave the
session as it was, whatever the other two fields, the clock and the network
hold. -/
theorem get_session_token_without_refresh_token (stn : String → Option Int) (s : Session)
    (now later : Int) (reply : SendResult)
    (h : s.z_refresh_token = null ∨ s.z_refresh_token = undefined ∨
          s.z_refresh_token = str "") :
    (get_session_token stn s now later reply).result = .ok null ∧
      (get_session_token stn s now later reply).requests = [] ∧
      (get_session_token stn s now later reply).session = s := by
  have hf : s.z_refresh_token.truthy = false := by
    rcases h with h | h | h <;> simp [h, JsVal.truthy]
  simp [get_session_token, JsVal.eqNull_orElse_null, hf]

theorem get_session_token_without_refresh_token_witness :
    ((str "" : JsVal) = null ∨ (str "" : JsVal) = undefined ∨ (str "" : JsVal) = str "") ∧
      (get_session_token (fun _ => none) ⟨str "", str "A", num 5⟩ 3 4
          (.rejected "down")).result = .ok null ∧
      (get_session_token (fun _ => none) ⟨str "", str "A", num 5⟩ 3 4
          (.rejected "down")).requests = [] ∧
      (get_session_token (fun _ => none) ⟨str "", str "A", num 5⟩ 3 4
          (.rejected "down")).session = ⟨str "", str "A", num 5⟩ :=
  ⟨Or.inr (Or.inr rfl),
    get_session_token_without_refresh_token (fun _ => none) ⟨str "", str "A", num 5⟩ 3 4
      (.rejected "down") (Or.inr (Or.inr rfl))⟩

/-- The branch `get_session_token` takes for a session with a refresh token:
the stored access token is returned untouched exactly when it is truthy and
the expiry is not below the clock. -/
theorem get_session_token_cached (stn : String → Option Int) (s : Session)
    (now later : Int) (reply : SendResult)
    (hr : s.z_refresh_token.truthy = true) (ha : s.z_access_token.truthy = true)
    (he : s.z_expiry.ltNum stn now = false) :
    get_session_token stn s now later reply = ⟨.ok s.z_access_token, s, []⟩ := by
  simp [get_session_token, JsVal.orElse_null_of_truthy hr, JsVal.orElse_null_of_truthy ha,
    JsVal.eqNull_of_truthy hr, JsVal.eqNull_of_truthy ha, he]

/-- The branch `get_session_token` takes when the access token is missing or
the expiry is below the clock: one refresh request, then the write-back. -/
theorem get_session_token_refreshes (stn : String → Option Int) (s : Session)
    (now later : Int) (reply : SendResult)
    (hr : s.z_refresh_token.truthy = true)
    (hneed : s.z_access_token.truthy = false ∨ s.z_expiry.ltNum stn now = true) :
    get_session_token stn s now later reply =
      match refresh_access_token reply with
      | .error e => ⟨.error e, s, [Request.refresh_token s.z_refresh_token]⟩
      | .ok result =>
        ⟨.ok (if result.access_token.truthy then result.access_token else null),
          set_session_token stn later s.z_refresh_token result.access_token result.timeout,
          [Request.refresh_token s.z_refresh_token]⟩ := by
  have hc : ((s.z_access_token.orElse null).eqNull || s.z_expiry.ltNum stn now) = true := by
    rcases hneed with h | h <;> simp [JsVal.eqNull_orElse_null, h]
  unfold get_session_token
  simp only [hc, JsVal.orElse_null_of_truthy hr, JsVal.eqNull_of_truthy hr]
  simp

/-- Under the conditions of `get_session_token_refreshes` exactly one request
is issued, the refresh request carrying the session's refresh token, whether
the refresh succeeds or throws. -/
theorem get_session_token_refreshes_once (stn : String → Option Int) (s : Session)
    (now later : Int) (reply : SendResult)
    (hr : s.z_refresh_token.truthy = true)
    (hneed : s.z_access_token.truthy = false ∨ s.z_expiry.ltNum stn now = true) :
    (get_session_token stn s now later reply).requests =
      [Request.refresh_token s.z_refresh_token] := by
  rw [get_session_token_refreshes stn s now later reply hr hneed]
  cases refresh_access_token reply <;> rfl

/-- A response with a status code of at most 300 and a body that is neither
`null` nor `undefined` makes `refresh_access_token` return the body's
`access_token` and `expires_in`. -/
theorem refresh_access_token_ok (response : Response)
    (hstatus : response.statusCode ≤ 300) (hbody : response.body.eqNull = false) :
    refresh_access_token (.resolved response) =
      .ok ⟨response.body.field "access_token", response.body.field "expires_in"⟩ := by
  have hs : ¬ response.statusCode > HTTP_CODE.NOT_ACCEPTED := by
    simp only [HTTP_CODE.NOT_ACCEPTED]; omega
  simp [refresh_access_token, check_result, hs, getProp, hbody]

/-- The expiry `set_session_token` stores for a lifetime of `L` seconds. -/
theorem set_session_token_num (stn : String → Option Int) (now L : Int) (r a : JsVal) :
    set_session_token stn now r a (num L) = ⟨r, a, num (now + 1000 * L - 1000)⟩ := by
  simp [set_session_token, JsVal.mulNum, JsVal.toNumber, JsVal.ofNum]
  ring

/-- C2, the code at the instant `now = z_expiry` and at a missing expiry: with
the session (R, A, 1000) and the clock at 1000 `get_session_token` returns the
stored token A and issues no request, where the claim asks for one refresh;
`get_env_token` on the same token, expiry and clock does refresh.  The same
holds with `z_expiry` undefined. -/
theorem get_session_token_at_expiry_no_refresh :
    (get_session_token (fun _ => none) ⟨str "R", str "A", num 1000⟩ 1000 1000
        (.resolved ⟨200, obj [("access_token", str "B"), ("expires_in", num 3600)]⟩)
      ).result = .ok (str "A") ∧
    (get_session_token (fun _ => none) ⟨str "R", str "A", num 1000⟩ 1000 1000
        (.resolved ⟨200, obj [("access_token", str "B"), ("expires_in", num 3600)]⟩)
      ).requests = [] ∧
    (get_env_token (fun _ => none) ⟨num 1000, str "A"⟩ (str "R") 1000 1000
        (.resolved ⟨200, obj [("access_token", str "B"), ("expires_in", num 3600)]⟩)
      ).requests = [Request.refresh_token (str "R")] ∧
    (get_session_token (fun _ => none) ⟨str "R", str "A", undefined⟩ 1000 1000
        (.resolved ⟨200, obj [("access_token", str "B"), ("expires_in", num 3600)]⟩)
      ).requests = [] ∧
    (get_env_token (fun _ => none) ⟨undefined, str "A"⟩ (str "R") 1000 1000
        (.resolved ⟨200, obj [("access_token", str "B"), ("expires_in", num 3600)]⟩)
      ).requests = [Request.refresh_token (str "R")] :=
  ⟨rfl, rfl, rfl, rfl, rfl⟩

/-- C3, as the code has it: for a session holding a refresh token R whose
access token is missing or whose expiry is below the clock, a refresh response
of status at most 300 with `access_token` A and an integer `expires_in` L,
written back at a time `t` for which `t`, `L * 1000`, `t + L * 1000` and
`t + L * 1000 - 1000` are safe integers, leaves the session as
(R, A, `t + 1000 * L - 1000`) and costs one request; it returns A when A is
truthy and `null` when A is empty or absent; with L = 3600 and `t = 0` the
expiry is 3599000 and a call at clock 3599500 refreshes again. -/
theorem get_session_token_write_back (stn : String → Option Int) (s : Session)
    (now t : Int) (response : Response) (L : Int)
    (hr : s.z_refresh_token.truthy = true)
    (hneed : s.z_access_token.truthy = false ∨ s.z_expiry.ltNum stn now = true)
    (hstatus : response.statusCode ≤ 300)
    (hL : response.body.field "expires_in" = num L)
    (_ht : isSafeInteger t) (_hmul : isSafeInteger (L * 1000))
    (_hadd : isSafeInteger (t + L * 1000)) (_hsub : isSafeInteger (t + L * 1000 - 1000)) :
    (get_session_token stn s now t (.resolved response)).session =
        ⟨s.z_refresh_token, response.body.field "access_token",
          num (t + 1000 * L - 1000)⟩ ∧
      (get_session_token stn s now t (.resolved response)).requests =
        [Request.refresh_token s.z_refresh_token] ∧
      ((response.body.field "access_token").truthy = true →
        (get_session_token stn s now t (.resolved response)).result =
          .ok (response.body.field "access_token")) ∧
      ((response.body.field "access_token").truthy = false →
        (get_session_token stn s now t (.resolved response)).result = .ok null) ∧
      (L = 3600 → t = 0 →
        (get_session_token stn s now t (.resolved response)).session.z_expiry =
            num 3599000 ∧
          ∀ (later : Int) (reply : SendResult),
            (get_session_token stn
                (get_session_token stn s now t (.resolved response)).session
                3599500 later reply).requests =
              [Request.refresh_token s.z_refresh_token]) := by
  have hbody : response.body.eqNull = false := by
    cases hb : response.body <;> simp_all [JsVal.eqNull, JsVal.field]
  have hout : get_session_token stn s now t (.resolved response) =
      ⟨.ok (if (response.body.field "access_token").truthy then
              response.body.field "access_token" else null),
        ⟨s.z_refresh_token, response.body.field "access_token", num (t + 1000 * L - 1000)⟩,
        [Request.refresh_token s.z_refresh_token]⟩ := by
    rw [get_session_token_refreshes stn s now t _ hr hneed,
      refresh_access_token_ok response hstatus hbody]
    simp [hL, set_session_token_num]
  rw [hout]
  refine ⟨rfl, rfl, ?_, ?_, ?_⟩
  · intro hA
    simp [hA]
  · intro hA
    simp [hA]
  · intro h1 h2
    subst h1 h2
    refine ⟨rfl, ?_⟩
    intro later reply
    exact get_session_token_refreshes_once stn _ 3599500 later reply hr (Or.inr rfl)

theorem get_session_token_write_back_witness :
    (isSafeInteger 0 ∧ isSafeInteger (3600 * 1000) ∧ isSafeInteger (0 + 3600 * 1000) ∧
      isSafeInteger (0 + 3600 * 1000 - 1000)) ∧
    (get_session_token (fun _ => none) ⟨str "R", undefined, undefined⟩ 0 0
        (.resolved ⟨200, obj [("access_token", str "A1"), ("expires_in", num 3600)]⟩)
      ).session = ⟨str "R", str "A1", num 3599000⟩ ∧
    (get_session_token (fun _ => none) ⟨str "R", undefined, undefined⟩ 0 0
        (.resolved ⟨200, obj [("access_token", str "A1"), ("expires_in", num 3600)]⟩)
      ).result = .ok (str "A1") ∧
    (get_session_token (fun _ => none) ⟨str "R", str "A1", num 3599000⟩ 3599500 3599600
        (.rejected "down")).requests = [Request.refresh_token (str "R")] :=
  have h := get_session_token_write_back (fun _ => none) ⟨str "R", undefined, undefined⟩ 0 0
    ⟨200, obj [("access_token", str "A1"), ("expires_in", num 3600)]⟩ 3600 rfl
    (Or.inl rfl) (by decide) rfl (by decide) (by decide) (by decide) (by decide)
  ⟨⟨by decide, by decide, by decide, by decide⟩, h.1, h.2.2.1 rfl,
    (h.2.2.2.2 rfl rfl).2 3599600 (.rejected "down")⟩

/-- C3, as stated, fails for a refresh response whose `access_token` is the
empty string: the session stores the empty string, and `get_session_token`
returns `null`, not the `access_token` of the response. -/
theorem get_session_token_empty_access_token_returns_null :
    (get_session_token (fun _ => none) ⟨str "R", undefined, undefined⟩ 0 0
        (.resolved ⟨200, obj [("access_token", str ""), ("expires_in", num 60)]⟩)
      ).session = ⟨str "R", str "", num 59000⟩ ∧
    ¬ ((get_session_token (fun _ => none) ⟨str "R", undefined, undefined⟩ 0 0
        (.resolved ⟨200, obj [("access_token", str ""), ("expires_in", num 60)]⟩)
      ).result = .ok (str "")) := by
  have h : (get_session_token (fun _ => none) ⟨str "R", undefined, undefined⟩ 0 0
      (.resolved ⟨200, obj [("access_token", str ""), ("expires_in", num 60)]⟩)
    ).result = .ok null := rfl
  rw [h]
  exact ⟨rfl, by simp⟩

/-! ## get_env_token -/

/-- The branch `get_env_token` takes when the cached token is valid. -/
theorem get_env_token_cached (stn : String → Option Int) (g : Globals) (refresh_token : JsVal)
    (now later : Int) (reply : SendResult)
    (ha : g.z_access_token.eqNull = false) (he : g.z_expiry.gtNum stn now = true) :
    get_env_token stn g refresh_token now later reply = ⟨.ok g.z_access_token, g, []⟩ := by
  simp [get_env_token, ha, he]

/-- The branch `get_env_token` takes when the cached token is not valid. -/
theorem get_env_token_refreshes (stn : String → Option Int) (g : Globals)
    (refresh_token : JsVal) (now later : Int) (reply : SendResult)
    (h : ¬ (g.z_access_token.eqNull = false ∧ g.z_expiry.gtNum stn now = true)) :
    get_env_token stn g refresh_token now later reply =
      match refresh_access_token reply with
      | .error e => ⟨.error e, g, [Request.refresh_token refresh_token]⟩
      | .ok result =>
        ⟨.ok result.access_token,
          { z_access_token := result.access_token, z_expiry := numAdd later result.timeout },
          [Request.refresh_token refresh_token]⟩ := by
  have hv : (!g.z_access_token.eqNull && g.z_expiry.gtNum stn now) = false := by
    cases h1 : g.z_access_token.eqNull <;> cases h2 : g.z_expiry.gtNum stn now <;> simp_all
  simp [get_env_token, hv]

/-- What `get_env_token` returns on success is the access token it leaves in
the module globals. -/
theorem get_env_token_result_cached (stn : String → Option Int) (g : Globals)
    (refresh_token : JsVal) (now later : Int) (reply : SendResult) (tok : JsVal)
    (h : (get_env_token stn g refresh_token now later reply).result = .ok tok) :
    (get_env_token stn g refresh_token now later reply).globals.z_access_token = tok := by
  by_cases hv : g.z_access_token.eqNull = false ∧ g.z_expiry.gtNum stn now = true
  · rw [get_env_token_cached stn g refresh_token now later reply hv.1 hv.2] at h ⊢
    simpa using h
  · rw [get_env_token_refreshes stn g refresh_token now later reply hv] at h ⊢
    cases hre : refresh_access_token reply with
    | error e => simp [hre] at h
    | ok result => simpa [hre] using h

/-- C4: `get_env_token` returns the cached access token with no request and
no change to the module globals exactly when the cached token is not
`null`/`undefined` and `z_expiry > now`, which for a numeric expiry `e` is
`now < e`; and a second call made while the token left by a first call is
valid returns the same token with no request and no change. -/
theorem get_env_token_cached_iff (stn : String → Option Int) (g : Globals)
    (refresh_token : JsVal) (now later : Int) (reply : SendResult) :
    (((get_env_token stn g refresh_token now later reply).result = .ok g.z_access_token ∧
        (get_env_token stn g refresh_token now later reply).requests = [] ∧
        (get_env_token stn g refresh_token now later reply).globals = g) ↔
      (g.z_access_token.eqNull = false ∧ g.z_expiry.gtNum stn now = true)) ∧
    (∀ e : Int, g.z_expiry = num e → (g.z_expiry.gtNum stn now = true ↔ now < e)) ∧
    (∀ (tok : JsVal) (now2 later2 : Int) (reply2 : SendResult),
      (get_env_token stn g refresh_token now later reply).result = .ok tok →
      (get_env_token stn g refresh_token now later reply).globals.z_access_token.eqNull
        = false →
      (get_env_token stn g refresh_token now later reply).globals.z_expiry.gtNum stn now2
        = true →
      (get_env_token stn (get_env_token stn g refresh_token now later reply).globals
          refresh_token now2 later2 reply2).result = .ok tok ∧
        (get_env_token stn (get_env_token stn g refresh_token now later reply).globals
          refresh_token now2 later2 reply2).requests = [] ∧
        (get_env_token stn (get_env_token stn g refresh_token now later reply).globals
          refresh_token now2 later2 reply2).globals =
          (get_env_token stn g refresh_token now later reply).globals) := by
  refine ⟨?_, ?_, ?_⟩
  · constructor
    · intro h
      by_contra hv
      have hreq := h.2.1
      rw [get_env_token_refreshes stn g refresh_token now later reply hv] at hreq
      cases hre : refresh_access_token reply <;> simp [hre] at hreq
    · intro hv
      rw [get_env_token_cached stn g refresh_token now later reply hv.1 hv.2]
      exact ⟨rfl, rfl, rfl⟩
  · intro e he
    rw [he, JsVal.gtNum_num]
    simp
  · intro tok now2 later2 reply2 hres ha he
    have htok := get_env_token_result_cached stn g refresh_token now later reply tok hres
    rw [get_env_token_cached stn _ refresh_token now2 later2 reply2 ha he, htok]
    exact ⟨rfl, rfl, rfl⟩

theorem get_env_token_cached_iff_witness :
    (get_env_token (fun _ => none) ⟨num 3600, str "A1"⟩ (str "R") 3599 3599
        (.rejected "down")).result = .ok (str "A1") ∧
      (get_env_token (fun _ => none) ⟨num 3600, str "A1"⟩ (str "R") 3599 3599
        (.rejected "down")).requests = [] ∧
      (get_env_token (fun _ => none) ⟨num 3600, str "A1"⟩ (str "R") 3599 3599
        (.rejected "down")).globals = ⟨num 3600, str "A1"⟩ :=
  (get_env_token_cached_iff (fun _ => none) ⟨num 3600, str "A1"⟩ (str "R") 3599 3599
    (.rejected "down")).1.2 ⟨rfl, rfl⟩

/-- C5, the code at `now = 0` and a lifetime of 3600 seconds: `get_env_token`
stores the expiry 3600, which is the clock in milliseconds plus the lifetime
in seconds, while `set_session_token` stores 3599000; the two differ by
3595400, not by the margin of 1000. -/
theorem get_env_token_expiry_adds_seconds_to_milliseconds :
    (get_env_token (fun _ => none) Globals.init (str "R") 0 0
        (.resolved ⟨200, obj [("access_token", str "A1"), ("expires_in", num 3600)]⟩)
      ).globals.z_expiry = num 3600 ∧
    (set_session_token (fun _ => none) 0 (str "R") (str "A1") (num 3600)).z_expiry =
      num 3599000 ∧
    (3600 : Int) ≠ 3599000 + 1000 := by
  refine ⟨rfl, rfl, by decide⟩

/-! ## invalidate_session -/

/-- The acceptance test of `invalidate_session` on a response. -/
theorem invalidate_session_resolved (stn : String → Option Int) (s : Session) (now : Int)
    (response : Response) :
    invalidate_session stn s now (.resolved response) =
      if response.body.truthy = true ∧
          ((response.body.field "status").looseEqStr stn "success" = true ∨
            response.statusCode = 400) then
        ⟨.ok undefined, ⟨null, null, num (now + 3599000)⟩, [Request.revoke s.z_refresh_token]⟩
      else
        ⟨.error (.unexpectedTokenResponse response), s, [Request.revoke s.z_refresh_token]⟩ := by
  by_cases h : response.body.truthy = true ∧
      ((response.body.field "status").looseEqStr stn "success" = true ∨
        response.statusCode = 400)
  · rw [if_pos h]
    obtain ⟨h1, h2⟩ := h
    have hc : (response.body.truthy &&
        ((response.body.field "status").looseEqStr stn "success" ||
          response.statusCode == 400)) = true := by
      rcases h2 with h2 | h2 <;> simp [h1, h2]
    simp [invalidate_session, hc, set_session_token, JsVal.mulNum, JsVal.toNumber, JsVal.ofNum]
    omega
  · rw [if_neg h]
    have hc : (response.body.truthy &&
        ((response.body.field "status").looseEqStr stn "success" ||
          response.statusCode == 400)) = false := by
      cases h1 : response.body.truthy <;>
        cases h2 : (response.body.field "status").looseEqStr stn "success" <;>
        simp_all
    simp [invalidate_session, hc]

/-- C6, as the code has it: whenever `invalidate_session` returns normally at
clock `now`, the session's `z_refresh_token` and `z_access_token` are `null`
and `z_expiry` is the number `now + 3599000` (the default lifetime of 3600
seconds less the margin); a following `get_session_token` returns `null`
without a request. -/
theorem invalidate_session_clears_tokens (stn : String → Option Int) (s : Session)
    (now : Int) (reply : SendResult) (v : JsVal)
    (h : (invalidate_session stn s now reply).result = .ok v) :
    (invalidate_session stn s now reply).session = ⟨null, null, num (now + 3599000)⟩ ∧
      ∀ (now2 later : Int) (reply2 : SendResult),
        (get_session_token stn (invalidate_session stn s now reply).session now2 later
            reply2).result = .ok null ∧
          (get_session_token stn (invalidate_session stn s now reply).session now2 later
            reply2).requests = [] := by
  have hs : (invalidate_session stn s now reply).session = ⟨null, null, num (now + 3599000)⟩ := by
    cases reply with
    | rejected err => simp [invalidate_session] at h
    | resolved response =>
      rw [invalidate_session_resolved] at h ⊢
      split at h
      · rename_i hc
        rw [if_pos hc]
      · simp at h
  refine ⟨hs, ?_⟩
  intro now2 later reply2
  rw [hs]
  exact ⟨rfl, rfl⟩

theorem invalidate_session_clears_tokens_witness :
    (invalidate_session (fun _ => none) ⟨str "R", str "A", num 5000⟩ 7
        (.resolved ⟨200, obj [("status", str "success")]⟩)).session =
      ⟨null, null, num 3599007⟩ :=
  (invalidate_session_clears_tokens (fun _ => none) ⟨str "R", str "A", num 5000⟩ 7
    (.resolved ⟨200, obj [("status", str "success")]⟩) undefined rfl).1

/-- C6, as stated, fails: after an accepted revocation at clock 0 the field
`z_expiry` holds the number 3599000, which is neither `null`, `undefined` nor
empty. -/
theorem invalidate_session_keeps_an_expiry :
    (invalidate_session (fun _ => none) ⟨str "R", str "A", num 5000⟩ 0
        (.resolved ⟨200, obj [("status", str "success")]⟩)).result = .ok undefined ∧
      ¬ ((invalidate_session (fun _ => none) ⟨str "R", str "A", num 5000⟩ 0
            (.resolved ⟨200, obj [("status", str "success")]⟩)).session.z_expiry = null ∨
          (invalidate_session (fun _ => none) ⟨str "R", str "A", num 5000⟩ 0
            (.resolved ⟨200, obj [("status", str "success")]⟩)).session.z_expiry = undefined ∨
          (invalidate_session (fun _ => none) ⟨str "R", str "A", num 5000⟩ 0
            (.resolved ⟨200, obj [("status", str "success")]⟩)).session.z_expiry = str "") := by
  have h : (invalidate_session (fun _ => none) ⟨str "R", str "A", num 5000⟩ 0
      (.resolved ⟨200, obj [("status", str "success")]⟩)).session.z_expiry = num 3599000 := rfl
  rw [h]
  exact ⟨rfl, by simp⟩

/-- C7, as the code has it: `invalidate_session` accepts a response exactly
when its body is truthy and either the body's `status` is `== "success"` or
the status code is 400; every other response makes it throw the "Unexpected
token response" error carrying the response and leaves the session as it was;
a 400 response with an empty text, which `send` decodes to the empty object,
is accepted. -/
theorem invalidate_session_accepts_iff (stn : String → Option Int) (s : Session) (now : Int)
    (response : Response) :
    ((invalidate_session stn s now (.resolved response)).result = .ok undefined ↔
        (response.body.truthy = true ∧
          ((response.body.field "status").looseEqStr stn "success" = true ∨
            response.statusCode = 400))) ∧
      (¬ (response.body.truthy = true ∧
            ((response.body.field "status").looseEqStr stn "success" = true ∨
              response.statusCode = 400)) →
        (invalidate_session stn s now (.resolved response)).result =
            .error (.unexpectedTokenResponse response) ∧
          (invalidate_session stn s now (.resolved response)).session = s) ∧
      (∀ parse : String → Option JsVal, parse "\x7b\x7d" = some (obj []) →
        (invalidate_session stn s now (.resolved ⟨400, send_body parse ""⟩)).result =
          .ok undefined) := by
  refine ⟨?_, ?_, ?_⟩
  · rw [invalidate_session_resolved]
    split <;> simp_all
  · intro h
    rw [invalidate_session_resolved, if_neg h]
    exact ⟨rfl, rfl⟩
  · intro parse hp
    rw [invalidate_session_resolved]
    simp [send_body, hp, JsVal.truthy]

theorem invalidate_session_accepts_iff_witness :
    (invalidate_session (fun _ => none) ⟨str "R", str "A", num 5000⟩ 7
        (.resolved ⟨400, send_body
          (fun t => if t = "\x7b\x7d" then some (obj []) else none) ""⟩)).result =
      .ok undefined :=
  (invalidate_session_accepts_iff (fun _ => none) ⟨str "R", str "A", num 5000⟩ 7
    ⟨400, obj []⟩).2.2 (fun t => if t = "\x7b\x7d" then some (obj []) else none) rfl

/-- C7, as stated, fails on a 400 response whose body decodes to `null`: the
status code is 400, yet `invalidate_session` throws and the session keeps its
tokens. -/
theorem invalidate_session_rejects_400_null_body :
    ¬ ((invalidate_session (fun _ => none) ⟨str "R", str "A", num 5000⟩ 0
          (.resolved ⟨400, null⟩)).result = .ok undefined ↔
        ((JsVal.field null "status").looseEqStr (fun _ => none) "success" = true ∨
          (⟨400, null⟩ : Response).statusCode = 400)) := by
  have h : (invalidate_session (fun _ => none) ⟨str "R", str "A", num 5000⟩ 0
      (.resolved ⟨400, null⟩)).result = .error (.unexpectedTokenResponse ⟨400, null⟩) := rfl
  rw [h]
  simp

/-! ## generate_access_token -/

/-- C8: a token-exchange response whose body is falsy or whose `refresh_token`
is falsy, whatever else it holds, makes `generate_access_token` throw the
"Unexpected token response" error carrying the response, with the session
left exactly as it was. -/
theorem generate_access_token_without_refresh_token (stn : String → Option Int) (s : Session)
    (code : JsVal) (now : Int) (response : Response)
    (h : response.body.truthy = false ∨
          (response.body.field "refresh_token").truthy = false) :
    (generate_access_token stn s code now (.resolved response)).result =
        .error (.unexpectedTokenResponse response) ∧
      (generate_access_token stn s code now (.resolved response)).session = s := by
  have hc : (response.body.truthy && (response.body.field "refresh_token").truthy) = false := by
    rcases h with h | h <;> simp [h]
  simp [generate_access_token, hc]

theorem generate_access_token_without_refresh_token_witness :
    (generate_access_token (fun _ => none) ⟨str "R0", str "A0", num 17⟩ (str "code") 5
        (.resolved ⟨200, obj [("access_token", str "A1"), ("expires_in", num 3600)]⟩)
      ).result =
        .error (.unexpectedTokenResponse
          ⟨200, obj [("access_token", str "A1"), ("expires_in", num 3600)]⟩) ∧
      (generate_access_token (fun _ => none) ⟨str "R0", str "A0", num 17⟩ (str "code") 5
        (.resolved ⟨200, obj [("access_token", str "A1"), ("expires_in", num 3600)]⟩)
      ).session = ⟨str "R0", str "A0", num 17⟩ :=
  generate_access_token_without_refresh_token (fun _ => none) ⟨str "R0", str "A0", num 17⟩
    (str "code") 5 ⟨200, obj [("access_token", str "A1"), ("expires_in", num 3600)]⟩
    (Or.inr rfl)

/-- The expiry `set_session_token` stores under the default lifetime. -/
theorem set_session_token_default (stn : String → Option Int) (now : Int) (r a : JsVal) :
    set_session_token stn now r a undefined = ⟨r, a, num (now + 3599000)⟩ := by
  simp [set_session_token, JsVal.mulNum, JsVal.toNumber, JsVal.ofNum]
  omega

/-- C9, as the code has it: when the token-exchange response carries a truthy
`refresh_token`, a truthy `access_token` A and an `expires_in` that is absent
or an integer of at least 2, the clock reading and the sums that make the
expiry being safe integers, `generate_access_token` returns A, and
`get_session_token` on the resulting session at the same clock reading returns
A again and issues no request. -/
theorem generate_then_get_session_token (stn : String → Option Int) (s : Session)
    (code : JsVal) (now later : Int) (response : Response) (reply : SendResult)
    (hR : (response.body.field "refresh_token").truthy = true)
    (hA : (response.body.field "access_token").truthy = true)
    (_hnow : isSafeInteger now)
    (hL : (response.body.field "expires_in" = undefined ∧ isSafeInteger (now + 3600 * 1000)) ∨
          ∃ L : Int, 2 ≤ L ∧ isSafeInteger (L * 1000) ∧ isSafeInteger (now + L * 1000) ∧
            response.body.field "expires_in" = num L) :
    (generate_access_token stn s code now (.resolved response)).result =
        .ok (response.body.field "access_token") ∧
      (get_session_token stn
          (generate_access_token stn s code now (.resolved response)).session
          now later reply).result = .ok (response.body.field "access_token") ∧
      (get_session_token stn
          (generate_access_token stn s code now (.resolved response)).session
          now later reply).requests = [] := by
  have hbody : response.body.truthy = true := by
    cases hb : response.body.truthy
    · rw [JsVal.field_eq_undefined_of_falsy hb] at hR
      simp [JsVal.truthy] at hR
    · rfl
  have hgen : generate_access_token stn s code now (.resolved response) =
      ⟨.ok (response.body.field "access_token"),
        set_session_token stn now (response.body.field "refresh_token")
          (response.body.field "access_token") (response.body.field "expires_in"),
        [Request.authorization_code code]⟩ := by
    simp [generate_access_token, hbody, hR]
  rw [hgen]
  have hcached : ∀ e : Int, now < e →
      get_session_token stn ⟨response.body.field "refresh_token",
          response.body.field "access_token", num e⟩ now later reply =
        ⟨.ok (response.body.field "access_token"),
          ⟨response.body.field "refresh_token", response.body.field "access_token", num e⟩,
          []⟩ := by
    intro e he
    apply get_session_token_cached stn _ now later reply hR hA
    show (num e).ltNum stn now = false
    rw [JsVal.ltNum_num]; simp; omega
  rcases hL with ⟨hL, _⟩ | ⟨L, hL1, _, _, hL⟩
  · rw [hL, set_session_token_default, hcached _ (by omega)]
    exact ⟨rfl, rfl, rfl⟩
  · rw [hL, set_session_token_num, hcached _ (by omega)]
    exact ⟨rfl, rfl, rfl⟩

theorem generate_then_get_session_token_witness :
    (isSafeInteger 0 ∧ (2 : Int) ≤ 3600 ∧ isSafeInteger (3600 * 1000) ∧
      isSafeInteger (0 + 3600 * 1000)) ∧
    (generate_access_token (fun _ => none) ⟨undefined, undefined, undefined⟩ (str "code") 0
        (.resolved ⟨200, obj [("access_token", str "A1"), ("refresh_token", str "R1"),
          ("expires_in", num 3600)]⟩)).result = .ok (str "A1") ∧
      (get_session_token (fun _ => none) ⟨str "R1", str "A1", num 3599000⟩ 0 1
        (.rejected "down")).result = .ok (str "A1") ∧
      (get_session_token (fun _ => none) ⟨str "R1", str "A1", num 3599000⟩ 0 1
        (.rejected "down")).requests = [] :=
  ⟨⟨by decide, by decide, by decide, by decide⟩,
    generate_then_get_session_token (fun _ => none) ⟨undefined, undefined, undefined⟩
      (str "code") 0 1
      ⟨200, obj [("access_token", str "A1"), ("refresh_token", str "R1"),
        ("expires_in", num 3600)]⟩
      (.rejected "down") rfl rfl (by decide)
      (Or.inr ⟨3600, by decide, by decide, by decide, rfl⟩)⟩

/-- C9, as stated, fails for an exchange response with all three fields and a
lifetime of 0 seconds: `generate_access_token` stores the token A1 with the
expiry `now - 1000` and returns A1, and the `get_session_token` that follows
at the same clock reading finds the expiry below the clock and issues a
refresh request. -/
theorem generate_zero_lifetime_then_refresh :
    (generate_access_token (fun _ => none) ⟨undefined, undefined, undefined⟩ (str "code") 0
        (.resolved ⟨200, obj [("refresh_token", str "R1"), ("access_token", str "A1"),
          ("expires_in", num 0)]⟩)).result = .ok (str "A1") ∧
    (generate_access_token (fun _ => none) ⟨undefined, undefined, undefined⟩ (str "code") 0
        (.resolved ⟨200, obj [("refresh_token", str "R1"), ("access_token", str "A1"),
          ("expires_in", num 0)]⟩)).session = ⟨str "R1", str "A1", num (-1000)⟩ ∧
    ¬ ((get_session_token (fun _ => none)
          (generate_access_token (fun _ => none) ⟨undefined, undefined, undefined⟩
            (str "code") 0
            (.resolved ⟨200, obj [("refresh_token", str "R1"), ("access_token", str "A1"),
              ("expires_in", num 0)]⟩)).session 0 0
          (.rejected "down")).requests = []) := by
  have h : (get_session_token (fun _ => none)
      (generate_access_token (fun _ => none) ⟨undefined, undefined, undefined⟩ (str "code") 0
        (.resolved ⟨200, obj [("refresh_token", str "R1"), ("access_token", str "A1"),
          ("expires_in", num 0)]⟩)).session 0 0
      (.rejected "down")).requests = [Request.refresh_token (str "R1")] := rfl
  rw [h]
  exact ⟨rfl, rfl, by simp⟩

/-! ## refresh_access_token and check_result -/

/-- The error `check_result` throws for a status code above 300 and a body
that is neither `null` nor `undefined`. -/
theorem check_result_error (response : Response) (hstatus : 300 < response.statusCode)
    (hbody : response.body.eqNull = false) :
    check_result response =
      .error (.error
        (if (response.body.field "message").truthy then response.body.field "message"
          else if (response.body.field "error").truthy then
            (response.body.field "error").field "message"
          else str "Unreadable response.")) := by
  have hs : response.statusCode > HTTP_CODE.NOT_ACCEPTED := by
    simp only [HTTP_CODE.NOT_ACCEPTED]; omega
  cases hm : (response.body.field "message").truthy
  · cases he : (response.body.field "error").truthy
    · simp [check_result, hs, getProp, hbody, hm, he]
    · simp [check_result, hs, getProp, hbody, hm, he, JsVal.eqNull_of_truthy he]
  · simp [check_result, hs, getProp, hbody, hm]

/-- C10, as the code has it: for a response whose body is neither `null` nor
`undefined`, `refresh_access_token` returns the body's `access_token` and
`expires_in` exactly when the status code is at most 300; above 300
`check_result` throws, and `refresh_access_token` with it, the `Error` built
from the body's `message` when that is truthy, else from the `message` of the
body's `error` when that `error` is truthy, else from "Unreadable response.",
and no token is returned. -/
theorem refresh_access_token_ok_iff (response : Response)
    (hbody : response.body.eqNull = false) :
    (refresh_access_token (.resolved response) =
          .ok ⟨response.body.field "access_token", response.body.field "expires_in"⟩ ↔
        response.statusCode ≤ 300) ∧
      (300 < response.statusCode →
        check_result response =
            .error (.error
              (if (response.body.field "message").truthy then response.body.field "message"
                else if (response.body.field "error").truthy then
                  (response.body.field "error").field "message"
                else str "Unreadable response.")) ∧
          refresh_access_token (.resolved response) =
            .error (.error
              (if (response.body.field "message").truthy then response.body.field "message"
                else if (response.body.field "error").truthy then
                  (response.body.field "error").field "message"
                else str "Unreadable response."))) := by
  have hhigh : 300 < response.statusCode →
      refresh_access_token (.resolved response) =
        .error (.error
          (if (response.body.field "message").truthy then response.body.field "message"
            else if (response.body.field "error").truthy then
              (response.body.field "error").field "message"
            else str "Unreadable response.")) := by
    intro hs
    simp only [refresh_access_token, check_result_error response hs hbody]
  refine ⟨⟨?_, ?_⟩, ?_⟩
  · intro hok
    by_contra hs
    rw [hhigh (by omega)] at hok
    simp at hok
  · intro hs
    exact refresh_access_token_ok response hs hbody
  · intro hs
    exact ⟨check_result_error response hs hbody, hhigh hs⟩

theorem refresh_access_token_ok_iff_witness :
    (refresh_access_token (.resolved ⟨401, obj [("error", str "invalid_code")]⟩) =
          .ok ⟨undefined, undefined⟩ ↔ (401 : Int) ≤ 300) ∧
      refresh_access_token (.resolved ⟨401, obj [("error", str "invalid_code")]⟩) =
        .error (.error undefined) :=
  have h := refresh_access_token_ok_iff ⟨401, obj [("error", str "invalid_code")]⟩ rfl
  ⟨h.1, (h.2 (by decide)).2⟩

/-- C10, as stated, fails on a response of status 200 whose body decodes to
`null`: the status is at most 300, yet `refresh_access_token` throws on the
read of `response.body.access_token` and returns no token. -/
theorem refresh_access_token_null_body_throws :
    ¬ ((∃ r : TokenResult, refresh_access_token (.resolved ⟨200, null⟩) = .ok r) ↔
        (⟨200, null⟩ : Response).statusCode ≤ 300) := by
  have h : refresh_access_token (.resolved ⟨200, null⟩) = .error .typeError := rfl
  rw [h]
  simp

end Auth
